import Mathlib

/-!
Verification of the request/response multiplexing core of an EtherCAT
master stack (files src/al_control.rs and src/client_inner.rs), as a
shallow embedding in Lean.

Machine integers are modelled as Nat with explicit reductions: the
AtomicU8 counter wraps modulo 256, byte values live below 256.
Fallible Rust code returns Except; a Rust panic is modelled as the
error branch of Except carrying the panic message, so a dispatch that
returns Except.ok terminated normally and one that returns
Except.error panicked.

The asynchronous body of ClientInternals::pdu is embedded as a
function of an explicit schedule: a list of PduEvent values records,
in order, the poll calls made on the response future and the moment
the timeout future completes, exactly the two ways the select loop in
the source can be driven.
-/

namespace EtherCrab

/-- Slave device lifecycle state. Modelled from the spec: the file
slave_state.rs is not under src/. Per the spec the defined variants are
Init, PreOp, SafeOp and Op, plus a catch-all unknown-state variant for
undefined low-nibble codes; the codes are the protocol-mandated ones
(SafeOp = 0x4 per the spec's worked example). -/
inductive SlaveState where
  | Init
  | PreOp
  | SafeOp
  | Op
  | Unknown
  deriving DecidableEq, Repr

/-- Modelled from the spec: the u8-to-state conversion tolerates undefined
codes by mapping them to the catch-all variant rather than failing. -/
def SlaveState.fromU8 (b : Nat) : SlaveState :=
  if b = 0x01 then .Init
  else if b = 0x02 then .PreOp
  else if b = 0x04 then .SafeOp
  else if b = 0x08 then .Op
  else .Unknown

/-- Modelled from the spec: the state-to-u8 conversion used by
AlControl::pack; the catch-all variant has no defined code and encodes
as zero. -/
def SlaveState.toU8 : SlaveState → Nat
  | .Init => 0x01
  | .PreOp => 0x02
  | .SafeOp => 0x04
  | .Op => 0x08
  | .Unknown => 0x00

/-- Error of the register codec (packed_struct's PackingError, reduced to
the one case the code can produce: a slice whose length is not the packed
size). -/
inductive PackingError where
  | BufferSizeMismatch
  deriving DecidableEq, Repr

/-- The AL control/status word for an individual slave device
(src/al_control.rs). -/
structure AlControl where
  state : SlaveState
  error : Bool
  id_request : Bool
  deriving DecidableEq, Repr

/-- AlControl::pack from src/al_control.rs: low nibble of byte 0 is the
state code, bit 4 the error flag, bit 5 the id-request flag; byte 1 is
zero. The result is the 2-byte array as a pair (byte0, byte1). -/
def AlControl.pack (x : AlControl) : Except PackingError (Nat × Nat) :=
  let byte := (SlaveState.toU8 x.state &&& 0x0f) |||
    ((if x.error then 1 else 0) <<< 4) |||
    ((if x.id_request then 1 else 0) <<< 5)
  .ok (byte, 0)

/-- AlControl::unpack from src/al_control.rs. -/
def AlControl.unpack (src : Nat × Nat) : Except PackingError AlControl :=
  let byte := src.1
  .ok {
    state := SlaveState.fromU8 (byte &&& 0x0f)
    error := decide (byte &&& (1 <<< 4) > 0)
    id_request := decide (byte &&& (1 <<< 5) > 0)
  }

/-- packed_struct's unpack_from_slice as invoked by the source: it fails
unless the slice length equals the packed size (2 bytes); the repo's own
unpack_short test pins this behaviour. -/
def AlControl.unpack_from_slice (slice : List Nat) : Except PackingError AlControl :=
  match slice with
  | [b0, b1] => AlControl.unpack (b0, b1)
  | _ => .error .BufferSizeMismatch

/-- PduRead::try_from_slice for AlControl from src/al_control.rs: it
forwards to unpack_from_slice, wrapping the error unchanged. -/
def AlControl.try_from_slice (slice : List Nat) : Except PackingError AlControl :=
  AlControl.unpack_from_slice slice

/-- RequestState from src/client_inner.rs. -/
inductive RequestState where
  | Created
  | Waiting
  | Done
  deriving DecidableEq, Repr

/-- PduError. Modelled from the spec: error.rs is not under src/; the
variants are the ones named by the spec's error taxonomy and used by
src/client_inner.rs (Timeout, IndexInUse, TooLong) plus a decode error
for parse failures and a response-mismatch error for is_response_to. -/
inductive PduError where
  | Timeout
  | IndexInUse
  | TooLong
  | Decode
  | Response
  deriving DecidableEq, Repr

/-- One protocol data unit. Modelled from the spec: pdu.rs is not under
src/. Per the spec a Pdu carries a command descriptor (device addressing
plus operation kind; its internal structure is irrelevant here, so it is
a bare number compared for equality), a payload of at most D bytes, a
declared payload length, the one-byte slot index and the working
counter. -/
structure Pdu (D : Nat) where
  command : Nat
  index : Nat
  data : List Nat
  data_length : Nat
  working_counter : Nat
  deriving DecidableEq, Repr

/-- Pdu::new as called by src/client_inner.rs line 93: fresh frame with
the given command, declared data length and index, empty payload. -/
def Pdu.new (D : Nat) (command : Nat) (data_length : Nat) (idx : Nat) : Pdu D :=
  { command := command, index := idx, data := [], data_length := data_length,
    working_counter := 0 }

/-- Modelled from the spec: Pdu::is_response_to requires the decoded PDU
to be a structurally valid response to the stored request, i.e. matching
command and index; a mismatch is an error. -/
def Pdu.is_response_to {D : Nat} (response request : Pdu D) : Except PduError Unit :=
  if response.command = request.command ∧ response.index = request.index then .ok ()
  else .error .Response

/-- Modelled from the spec: Pdu::from_ethernet_payload (pdu.rs is not
under src/). Wire layout per the spec: command/address descriptor, the
one-byte index, the payload length, the payload bytes (at most D, larger
declared lengths are a decode error), then the two-byte little-endian
working counter; a buffer too short for the declared layout is a decode
error. Returns the decoded Pdu and the unconsumed rest of the buffer. -/
def Pdu.from_ethernet_payload (D : Nat) (payload : List Nat) :
    Except PduError (Pdu D × List Nat) :=
  match payload with
  | cmd :: idx :: l0 :: l1 :: rest =>
    let len := l0 + 256 * l1
    if len > D then .error .Decode
    else if rest.length < len + 2 then .error .Decode
    else
      let after := rest.drop len
      .ok ({ command := cmd, index := idx, data := rest.take len, data_length := len,
             working_counter := after.getD 0 0 + 256 * after.getD 1 0 },
           after.drop 2)
  | _ => .error .Decode

/-- Modelled from the spec: the reserved EtherType of the fieldbus
protocol (lib.rs is not under src/); the concrete value is the EtherCAT
registered one. -/
def ETHERCAT_ETHERTYPE : Nat := 0x88A4

/-- Modelled from the spec: the master's own source address, used to
filter out echoes of its own broadcasts (lib.rs is not under src/). -/
def MASTER_ADDR : List Nat := [0x10, 0x10, 0x10, 0x10, 0x10, 0x10]

/-- ClientInternals from src/client_inner.rs, for a table of N frames and
payload capacity D. Wakers are modelled as bare numeric identifiers;
waking has no effect on this state. idx is the AtomicU8 allocation
counter, a value below 256. -/
structure ClientInternals (N D : Nat) where
  wakers : List (Option Nat)
  frames : List (Option (RequestState × Pdu D))
  send_waker : Option Nat
  idx : Nat
  deriving DecidableEq, Repr

/-- ClientInternals::new: every waker and frame slot empty, counter
zero. -/
def ClientInternals.new (N D : Nat) : ClientInternals N D :=
  { wakers := List.replicate N none, frames := List.replicate N none,
    send_waker := none, idx := 0 }

/-- The synchronous allocation block of ClientInternals::pdu
(src/client_inner.rs lines 84-106): fetch_add on the u8 counter (returns
the old value, stores old+1 wrapped at 256), candidate index = old value
mod N; an occupied slot is IndexInUse; an over-long payload is TooLong;
otherwise the new frame is stored as Created at the candidate index.
Waking the send waker by reference does not change the state. -/
def ClientInternals.pduAlloc {N D : Nat} (command : Nat) (data : List Nat)
    (data_length : Nat) (s : ClientInternals N D) :
    Except PduError Nat × ClientInternals N D :=
  let cand := s.idx % N
  let s1 := { s with idx := (s.idx + 1) % 256 }
  if (s1.frames.getD cand none).isSome then
    (.error .IndexInUse, s1)
  else if data.length > D then
    (.error .TooLong, s1)
  else
    (.ok cand,
     { s1 with
        frames := s1.frames.set cand
          (some (RequestState.Created, { Pdu.new D command data_length cand with data := data })) })

/-- One execution of the poll_fn closure body inside ClientInternals::pdu
(src/client_inner.rs lines 109-129): take the frame at the slot; a Done
frame resolves the future (leaving the slot empty); any other content is
put back and the future stays pending; in every case the calling task's
waker is then stored for the slot — including after resolution. -/
def ClientInternals.pduPollOnce {N D : Nat} (i : Nat) (wk : Nat)
    (s : ClientInternals N D) : Option (Pdu D) × ClientInternals N D :=
  let frame := s.frames.getD i none
  let framesTaken := s.frames.set i none
  let (res, frames2) :=
    match frame with
    | some (RequestState.Done, pdu) => (some pdu, framesTaken)
    | some st => (none, framesTaken.set i (some st))
    | none => (none, framesTaken)
  (res, { s with frames := frames2, wakers := s.wakers.set i (some wk) })

/-- One observable step of the select loop in ClientInternals::pdu: either
the response future is polled by a task with the given waker, or the
timeout future completes. -/
inductive PduEvent where
  | poll (wk : Nat)
  | timerFires
  deriving DecidableEq, Repr

/-- Result of one ClientInternals::pdu call: the decoded response PDU, a
typed PduError, or still pending when the schedule ran out before either
side of the select resolved. -/
inductive PduOutcome (D : Nat) where
  | ok (p : Pdu D)
  | err (e : PduError)
  | pending
  deriving DecidableEq, Repr

/-- The await phase of ClientInternals::pdu (the select between the
poll_fn future and the timeout, src/client_inner.rs lines 109-139),
driven by an explicit schedule: a poll that observes Done resolves with
the frame; the timer firing resolves with PduError::Timeout, leaving the
state exactly as the preceding polls left it. -/
def ClientInternals.pduAwait {N D : Nat} (i : Nat) (events : List PduEvent)
    (s : ClientInternals N D) : PduOutcome D × ClientInternals N D :=
  match events with
  | [] => (.pending, s)
  | .timerFires :: _ => (.err .Timeout, s)
  | .poll wk :: rest =>
    match ClientInternals.pduPollOnce i wk s with
    | (some pdu, s1) => (.ok pdu, s1)
    | (none, s1) => ClientInternals.pduAwait i rest s1

/-- ClientInternals::pdu (src/client_inner.rs lines 77-140): the
allocation block followed by the select of response against timeout; an
allocation error returns immediately, before any suspension, so the
schedule is not consumed. -/
def ClientInternals.pdu {N D : Nat} (command : Nat) (data : List Nat)
    (data_length : Nat) (events : List PduEvent) (s : ClientInternals N D) :
    PduOutcome D × ClientInternals N D :=
  match ClientInternals.pduAlloc command data data_length s with
  | (.error e, s1) => (.err e, s1)
  | (.ok i, s1) => ClientInternals.pduAwait i events s1

/-- ClientInternals::parse_response_ethernet_packet
(src/client_inner.rs lines 143-175). The ethernet view follows smoltcp:
source address at bytes 6..12, big-endian EtherType at bytes 12..14,
payload from byte 14. Wrong EtherType or a self-sourced frame returns
with no state change. A payload that fails to decode panics (the
expect on line 154). An index beyond the table panics (out-of-bounds
slice index). Otherwise the waker at the index is taken; with no waker
registered nothing further happens; with a waker, an empty frame slot
panics (line 170), a mismatched response panics (the unwrap on line
165), and a matching one is stored in the slot, which is marked Done. -/
def ClientInternals.parse_response_ethernet_packet {N D : Nat} (raw : List Nat)
    (s : ClientInternals N D) : Except String (ClientInternals N D) :=
  if raw.length < 14 then .error "ethernet header out of range"
  else if 256 * raw.getD 12 0 + raw.getD 13 0 ≠ ETHERCAT_ETHERTYPE
      ∨ (raw.drop 6).take 6 = MASTER_ADDR then .ok s
  else
    match Pdu.from_ethernet_payload D (raw.drop 14) with
    | .error _ => .error "Packet parse"
    | .ok (pdu, _rest) =>
      if N ≤ pdu.index then .error "index out of range"
      else
        match s.wakers.getD pdu.index none with
        | none => .ok { s with wakers := s.wakers.set pdu.index none }
        | some _wk =>
          match s.frames.getD pdu.index none with
          | some (_st, existing) =>
            match pdu.is_response_to existing with
            | .error _ => .error "called unwrap on an Err value"
            | .ok _ =>
              .ok { s with
                      wakers := s.wakers.set pdu.index none,
                      frames := s.frames.set pdu.index (some (RequestState.Done, pdu)) }
          | none => .error "No waiting frame for response"

/-- A sequence of allocation attempts (each one the synchronous block of
a ClientInternals::pdu call), run left to right; used to reason about
the counter's trajectory across attempts. -/
def ClientInternals.allocSeq {N D : Nat} (reqs : List (Nat × List Nat × Nat))
    (s : ClientInternals N D) : ClientInternals N D :=
  match reqs with
  | [] => s
  | (c, d, dl) :: rest =>
    ClientInternals.allocSeq rest (ClientInternals.pduAlloc c d dl s).2

/-- The candidate index computed by the k-th allocation attempt (k
counted from 1) after the table's creation, when the attempts carry the
given commands and payloads: the counter value left by the first k-1
attempts, reduced modulo N. -/
def nthAllocCandidate (N D : Nat) (reqs : List (Nat × List Nat × Nat)) (k : Nat) : Nat :=
  (ClientInternals.allocSeq (reqs.take (k - 1)) (ClientInternals.new N D)).idx % N

/-- A well-formed inbound EtherCAT frame: zero destination, a non-master
source, the EtherCAT EtherType, then a payload carrying command 7, index
0, length 0 and working counter 0. Concrete test input. -/
def testFrame : List Nat :=
  [0, 0, 0, 0, 0, 0, 1, 2, 3, 4, 5, 6, 0x88, 0xA4, 7, 0, 0, 0, 0, 0]

/-- An inbound frame that passes the EtherType/source filter but whose
payload is empty, so PDU decoding fails. Concrete test input. -/
def testFrameShort : List Nat :=
  [0, 0, 0, 0, 0, 0, 1, 2, 3, 4, 5, 6, 0x88, 0xA4]

/-- The request PDU that testFrame answers: same command and index. -/
def testRequest : Pdu 8 :=
  { command := 7, index := 0, data := [], data_length := 0, working_counter := 0 }

/-- C7: for every AlControl value whose state is one of the defined
lifecycle variants, unpacking the packed 2-byte register yields the value
back. -/
theorem al_control_roundtrip (x : AlControl) (_h : x.state ≠ SlaveState.Unknown) :
    (AlControl.pack x).bind AlControl.unpack = .ok x := by
  obtain ⟨st, e, id⟩ := x
  cases st <;> cases e <;> cases id <;> rfl

/-- Witness for C7 at the SafeOp register value with the error flag
set. -/
theorem al_control_roundtrip_witness :
    (AlControl.mk SlaveState.SafeOp true false).state ≠ SlaveState.Unknown ∧
    (AlControl.pack (AlControl.mk SlaveState.SafeOp true false)).bind AlControl.unpack
      = .ok (AlControl.mk SlaveState.SafeOp true false) :=
  ⟨by decide, al_control_roundtrip (AlControl.mk SlaveState.SafeOp true false) (by decide)⟩

/-- C8: pack places the state code in bits 0-3 of byte 0, the error flag
in bit 4, the id-request flag in bit 5, leaves bits 6-7 of byte 0 and all
of byte 1 zero; and the SafeOp-with-error example packs to exactly the
bytes (0x14, 0x00). -/
theorem al_control_pack_layout :
    (∀ x : AlControl, ∃ b0,
      AlControl.pack x = .ok (b0, 0) ∧
      b0 % 16 = SlaveState.toU8 x.state ∧
      b0.testBit 4 = x.error ∧
      b0.testBit 5 = x.id_request ∧
      b0 < 64) ∧
    AlControl.pack (AlControl.mk SlaveState.SafeOp true false) = .ok (0x14, 0x00) := by
  constructor
  · rintro ⟨st, e, id⟩
    cases st <;> cases e <;> cases id <;>
      exact ⟨_, rfl, by decide, by decide, by decide, by decide⟩
  · rfl

/-- C9: decoding an AlControl value from a buffer shorter than the fixed
2-byte register width is a hard decode error, not a partial or padded
decode. -/
theorem al_control_short_slice_errors (slice : List Nat) (h : slice.length < 2) :
    AlControl.try_from_slice slice = .error PackingError.BufferSizeMismatch := by
  match slice with
  | [] => rfl
  | [_] => rfl
  | _ :: _ :: _ => simp at h; omega

/-- Witness for C9 at the repo test's 1-byte buffer. -/
theorem al_control_short_slice_errors_witness :
    ([0x14] : List Nat).length < 2 ∧
    AlControl.try_from_slice [0x14] = .error PackingError.BufferSizeMismatch :=
  ⟨by decide, al_control_short_slice_errors [0x14] (by decide)⟩

/-- C10: unpacking a full 2-byte buffer always succeeds, and the decoded
value depends only on the low 6 bits of byte 0 — bits 6-7 of byte 0 and
all of byte 1 are ignored. -/
theorem al_control_unpack_total_low6 :
    (∀ b0 b1 : Nat, ∃ x, AlControl.unpack (b0, b1) = .ok x) ∧
    (∀ b0 b1 c0 c1 : Nat, b0 % 64 = c0 % 64 →
      AlControl.unpack (b0, b1) = AlControl.unpack (c0, c1)) := by
  constructor
  · intro b0 b1
    exact ⟨_, rfl⟩
  · intro b0 b1 c0 c1 h
    have hbit : ∀ i : Nat, i < 6 → b0.testBit i = c0.testBit i := by
      intro i hi
      have hn : (b0 % 2 ^ 6).testBit i = (decide (i < 6) && b0.testBit i) :=
        Nat.testBit_mod_two_pow ..
      have hm : (c0 % 2 ^ 6).testBit i = (decide (i < 6) && c0.testBit i) :=
        Nat.testBit_mod_two_pow ..
      have hd : decide (i < 6) = true := decide_eq_true hi
      rw [hd, Bool.true_and] at hn hm
      have h64 : b0 % 2 ^ 6 = c0 % 2 ^ 6 := by simpa using h
      rw [← hn, ← hm, h64]
    have h15 : b0 &&& 0x0f = c0 &&& 0x0f := by
      have hb : b0 &&& 0x0f = b0 % 16 := by
        simpa using Nat.and_pow_two_sub_one_eq_mod b0 4
      have hc : c0 &&& 0x0f = c0 % 16 := by
        simpa using Nat.and_pow_two_sub_one_eq_mod c0 4
      rw [hb, hc]
      calc b0 % 16 = b0 % 64 % 16 := (Nat.mod_mod_of_dvd b0 (by norm_num)).symm
        _ = c0 % 64 % 16 := by rw [h]
        _ = c0 % 16 := Nat.mod_mod_of_dvd c0 (by norm_num)
    have h16 : b0 &&& (1 <<< 4) = c0 &&& (1 <<< 4) := by
      have e1 : (1 <<< 4 : Nat) = 2 ^ 4 := by norm_num [Nat.shiftLeft_eq]
      rw [e1, Nat.and_two_pow, Nat.and_two_pow, hbit 4 (by norm_num)]
    have h32 : b0 &&& (1 <<< 5) = c0 &&& (1 <<< 5) := by
      have e1 : (1 <<< 5 : Nat) = 2 ^ 5 := by norm_num [Nat.shiftLeft_eq]
      rw [e1, Nat.and_two_pow, Nat.and_two_pow, hbit 5 (by norm_num)]
    simp only [AlControl.unpack]
    rw [h15, h16, h32]

/-- Witness for C10 at two byte values that agree modulo 64. -/
theorem al_control_unpack_total_low6_witness :
    (84 : Nat) % 64 = (212 : Nat) % 64 ∧
    AlControl.unpack (84, 0) = AlControl.unpack (212, 9) :=
  ⟨by decide, al_control_unpack_total_low6.2 84 0 212 9 (by decide)⟩

/-- Helper: every allocation attempt advances the u8 counter by one,
wrapping at 256, in all three outcome branches. -/
theorem pduAlloc_idx {N D : Nat} (c : Nat) (d : List Nat) (dl : Nat)
    (s : ClientInternals N D) :
    (ClientInternals.pduAlloc c d dl s).2.idx = (s.idx + 1) % 256 := by
  simp only [ClientInternals.pduAlloc]
  split
  · rfl
  · split
    · rfl
    · rfl

/-- Helper: a successful allocation stores the Created frame at the
candidate index, the old counter value modulo N. -/
theorem pduAlloc_free {N D : Nat} (c : Nat) (d : List Nat) (dl : Nat)
    (s : ClientInternals N D)
    (hfree : s.frames.getD (s.idx % N) none = none)
    (hdata : d.length ≤ D) :
    ClientInternals.pduAlloc c d dl s
      = (.ok (s.idx % N),
         { s with
            idx := (s.idx + 1) % 256,
            frames := s.frames.set (s.idx % N)
              (some (RequestState.Created,
                { Pdu.new D c dl (s.idx % N) with data := d })) }) := by
  simp only [ClientInternals.pduAlloc]
  rw [if_neg (show ¬((s.frames.getD (s.idx % N) none).isSome = true) by
        rw [hfree]; simp),
      if_neg (by omega)]

/-- Helper: the counter value after a sequence of allocation attempts is
the starting value plus the number of attempts, modulo 256. -/
theorem allocSeq_idx {N D : Nat} (reqs : List (Nat × List Nat × Nat))
    (s : ClientInternals N D) (hs : s.idx < 256) :
    (ClientInternals.allocSeq reqs s).idx = (s.idx + reqs.length) % 256 := by
  induction reqs generalizing s with
  | nil => simp [ClientInternals.allocSeq, Nat.mod_eq_of_lt hs]
  | cons r rest ih =>
    obtain ⟨c, d, dl⟩ := r
    rw [ClientInternals.allocSeq]
    have hidx := pduAlloc_idx c d dl s
    rw [ih _ (by rw [hidx]; exact Nat.mod_lt _ (by norm_num))]
    rw [hidx]
    simp only [List.length_cons]
    omega

/-- C5: a pdu call whose candidate index refers to an occupied slot
returns IndexInUse with the same result under every schedule (so without
suspending) and leaves the frame slot table unchanged. -/
theorem pdu_index_in_use (N D : Nat) (command : Nat) (data : List Nat)
    (data_length : Nat) (events : List PduEvent) (s : ClientInternals N D)
    (hocc : (s.frames.getD (s.idx % N) none).isSome = true) :
    (ClientInternals.pdu command data data_length events s).1
      = PduOutcome.err PduError.IndexInUse ∧
    ((ClientInternals.pdu command data data_length events s).2).frames = s.frames := by
  simp only [ClientInternals.pdu, ClientInternals.pduAlloc]
  rw [if_pos hocc]
  exact ⟨rfl, rfl⟩

/-- Witness for C5: a capacity-1 table after one successful allocation;
the second send returns IndexInUse under the empty schedule. -/
theorem pdu_index_in_use_witness :
    ((((ClientInternals.pduAlloc 7 [] 0 (ClientInternals.new 1 8)).2).frames.getD
        (((ClientInternals.pduAlloc 7 [] 0 (ClientInternals.new 1 8)).2).idx % 1)
        none).isSome = true) ∧
    (ClientInternals.pdu 9 [] 0 []
        ((ClientInternals.pduAlloc 7 [] 0 (ClientInternals.new 1 8)).2)).1
      = PduOutcome.err PduError.IndexInUse :=
  ⟨by decide, (pdu_index_in_use 1 8 9 [] 0 [] _ (by decide)).1⟩

/-- C6 counterexample: with capacity 3, the 257th allocation attempt
computes candidate 0 because the u8 counter wrapped at 256, while the
claimed value (257-1) mod 3 is 1. -/
theorem alloc_candidate_wrap_counterexample :
    nthAllocCandidate 3 8 (List.replicate 256 (0, [], 0)) 257 = 0 ∧
    (257 - 1) % 3 = 1 ∧
    nthAllocCandidate 3 8 (List.replicate 256 (0, [], 0)) 257 ≠ (257 - 1) % 3 := by
  have h0 : nthAllocCandidate 3 8 (List.replicate 256 (0, [], 0)) 257 = 0 := by
    unfold nthAllocCandidate
    rw [allocSeq_idx _ _ (by simp [ClientInternals.new])]
    simp only [ClientInternals.new, List.length_take, List.length_replicate]
    norm_num
  exact ⟨h0, rfl, by rw [h0]; decide⟩

/-- C6 amended: the k-th allocation attempt since table creation computes
candidate ((k-1) mod 256) mod N — the u8 counter wraps at 256 before the
reduction modulo N — which coincides with (k-1) mod N whenever N divides
256, but not in general. -/
theorem alloc_candidate_mod256 (N D k : Nat) (reqs : List (Nat × List Nat × Nat))
    (_hk : 1 ≤ k) (hlen : k - 1 ≤ reqs.length) :
    nthAllocCandidate N D reqs k = ((k - 1) % 256) % N ∧
    (N ∣ 256 → nthAllocCandidate N D reqs k = (k - 1) % N) := by
  have h1 : nthAllocCandidate N D reqs k = ((k - 1) % 256) % N := by
    unfold nthAllocCandidate
    rw [allocSeq_idx _ _ (by simp [ClientInternals.new])]
    simp [ClientInternals.new, List.length_take, Nat.min_eq_left hlen]
  exact ⟨h1, fun hdvd => by rw [h1, Nat.mod_mod_of_dvd _ hdvd]⟩

/-- Witness for C6 amended at k = 5 with a capacity-4 table. -/
theorem alloc_candidate_mod256_witness :
    (1 ≤ 5 ∧ 5 - 1 ≤ (List.replicate 6 ((0 : Nat), ([] : List Nat), (0 : Nat))).length) ∧
    (nthAllocCandidate 4 8 (List.replicate 6 (0, [], 0)) 5 = ((5 - 1) % 256) % 4 ∧
      (4 ∣ 256 → nthAllocCandidate 4 8 (List.replicate 6 (0, [], 0)) 5 = (5 - 1) % 4)) :=
  ⟨⟨by decide, by decide⟩,
   alloc_candidate_mod256 4 8 5 (List.replicate 6 (0, [], 0)) (by decide) (by decide)⟩

/-- Helper: reading back an in-range list update. -/
theorem getD_set_eq {α : Type} (l : List α) (i : Nat) (a d : α)
    (h : i < l.length) : (l.set i a).getD i d = a := by
  simp [List.getD_eq_getElem?_getD, List.getElem?_set_self, h]

/-- Helper: polling a slot that holds a frame not yet Done leaves the
frame in place and registers the polling task's waker. -/
theorem pduPollOnce_not_done {N D : Nat} (i wk : Nat) (s : ClientInternals N D)
    (st : RequestState) (p : Pdu D) (hst : st ≠ RequestState.Done)
    (hocc : s.frames.getD i none = some (st, p)) :
    ClientInternals.pduPollOnce i wk s
      = (none, { s with
            frames := s.frames.set i (some (st, p)),
            wakers := s.wakers.set i (some wk) }) := by
  unfold ClientInternals.pduPollOnce
  rw [hocc]
  cases st with
  | Created => simp [List.set_set]
  | Waiting => simp [List.set_set]
  | Done => exact absurd rfl hst

/-- Helper: with a slot that is occupied but never becomes Done, a run of
polls followed by the timer firing resolves the pdu call with Timeout and
leaves the slot's frame exactly as it was. -/
theorem pduAwait_stuck {N D : Nat} (i : Nat) (polls : List Nat)
    (s : ClientInternals N D) (st : RequestState) (p : Pdu D)
    (hst : st ≠ RequestState.Done) (hi : i < s.frames.length)
    (hocc : s.frames.getD i none = some (st, p)) :
    (ClientInternals.pduAwait i (polls.map PduEvent.poll ++ [PduEvent.timerFires]) s).1
      = PduOutcome.err PduError.Timeout ∧
    ((ClientInternals.pduAwait i (polls.map PduEvent.poll ++ [PduEvent.timerFires]) s).2).frames.getD
        i none
      = some (st, p) := by
  induction polls generalizing s with
  | nil => exact ⟨rfl, hocc⟩
  | cons wk rest ih =>
    rw [List.map_cons, List.cons_append, ClientInternals.pduAwait,
      pduPollOnce_not_done i wk s st p hst hocc]
    exact ih _ (by simpa using hi) (getD_set_eq _ _ _ _ hi)

/-- C1 counterexample: a capacity-1 table, one send with an empty
payload, one pending poll, then the timeout fires: the call returns
Timeout but the slot at index 0 is still occupied, not released. -/
theorem pdu_timeout_not_released_counterexample :
    (ClientInternals.pdu 7 [] 0 [PduEvent.poll 0, PduEvent.timerFires]
        (ClientInternals.new 1 8)).1 = PduOutcome.err PduError.Timeout ∧
    ((ClientInternals.pdu 7 [] 0 [PduEvent.poll 0, PduEvent.timerFires]
        (ClientInternals.new 1 8)).2).frames.getD 0 none ≠ none := by
  decide

/-- C1 amended: a send whose timeout elapses before a matching response
is dispatched returns the typed error PduError::Timeout, but the slot at
its allocated index is NOT released: the Created frame is still stored
there, so the index does not become eligible for reallocation (a later
send computing that candidate sees an occupied slot). -/
theorem pdu_timeout_slot_leaked (N D : Nat) (command : Nat) (data : List Nat)
    (data_length : Nat) (polls : List Nat) (s : ClientInternals N D)
    (hN : 0 < N) (hlen : s.frames.length = N)
    (hfree : s.frames.getD (s.idx % N) none = none)
    (hdata : data.length ≤ D) :
    (ClientInternals.pdu command data data_length
        (polls.map PduEvent.poll ++ [PduEvent.timerFires]) s).1
      = PduOutcome.err PduError.Timeout ∧
    ((ClientInternals.pdu command data data_length
        (polls.map PduEvent.poll ++ [PduEvent.timerFires]) s).2).frames.getD
        (s.idx % N) none
      = some (RequestState.Created,
          { Pdu.new D command data_length (s.idx % N) with data := data }) := by
  have hcand : s.idx % N < N := Nat.mod_lt _ hN
  have hcand2 : s.idx % N < s.frames.length := by rw [hlen]; exact hcand
  simp only [ClientInternals.pdu, pduAlloc_free command data data_length s hfree hdata]
  exact pduAwait_stuck (s.idx % N) polls _ RequestState.Created _ (by decide)
    (by simpa using hcand2) (getD_set_eq _ _ _ _ hcand2)

/-- Witness for C1 amended: capacity-1 table, fresh state, one poll. -/
theorem pdu_timeout_slot_leaked_witness :
    (0 < 1 ∧ (ClientInternals.new 1 8).frames.length = 1 ∧
      (ClientInternals.new 1 8).frames.getD ((ClientInternals.new 1 8).idx % 1) none = none ∧
      ([] : List Nat).length ≤ 8) ∧
    ((ClientInternals.pdu 7 [] 0 ([0].map PduEvent.poll ++ [PduEvent.timerFires])
        (ClientInternals.new 1 8)).1 = PduOutcome.err PduError.Timeout ∧
      ((ClientInternals.pdu 7 [] 0 ([0].map PduEvent.poll ++ [PduEvent.timerFires])
          (ClientInternals.new 1 8)).2).frames.getD ((ClientInternals.new 1 8).idx % 1) none
        = some (RequestState.Created,
            { Pdu.new 8 7 0 ((ClientInternals.new 1 8).idx % 1) with data := [] })) :=
  ⟨⟨by decide, by decide, by decide, by decide⟩,
   pdu_timeout_slot_leaked 1 8 7 [] 0 [0] (ClientInternals.new 1 8)
     (by decide) (by decide) (by decide) (by decide)⟩

/-- Helper: for an inbound frame that passes the filter and decodes to an
in-range index, dispatch is fully determined by the waker and frame slot
at that index. -/
theorem dispatch_reduce {N D : Nat} (raw : List Nat) (s : ClientInternals N D)
    (pdu : Pdu D) (rest : List Nat)
    (hl : ¬ raw.length < 14)
    (hety : 256 * raw.getD 12 0 + raw.getD 13 0 = ETHERCAT_ETHERTYPE)
    (hsrc : (raw.drop 6).take 6 ≠ MASTER_ADDR)
    (hdec : Pdu.from_ethernet_payload D (raw.drop 14) = .ok (pdu, rest))
    (hidx : pdu.index < N) :
    ClientInternals.parse_response_ethernet_packet raw s
      = match s.wakers.getD pdu.index none with
        | none => .ok { s with wakers := s.wakers.set pdu.index none }
        | some _ =>
          match s.frames.getD pdu.index none with
          | some (_st, existing) =>
            match pdu.is_response_to existing with
            | .error _ => .error "called unwrap on an Err value"
            | .ok _ =>
              .ok { s with
                      wakers := s.wakers.set pdu.index none,
                      frames := s.frames.set pdu.index (some (RequestState.Done, pdu)) }
          | none => .error "No waiting frame for response" := by
  unfold ClientInternals.parse_response_ethernet_packet
  rw [if_neg hl, if_neg (by push_neg; exact ⟨hety, hsrc⟩)]
  simp only [hdec]
  rw [if_neg (by omega)]

/-- C2 counterexample: an in-filter frame for index 0, whose frame slot
is empty but which has a stale registered waker, makes dispatch panic
(No waiting frame for response) instead of being a no-op. -/
theorem dispatch_unoccupied_slot_counterexample :
    ClientInternals.parse_response_ethernet_packet testFrame
        ({ wakers := [some 0], frames := [none], send_waker := none, idx := 1 }
          : ClientInternals 1 8)
      = .error "No waiting frame for response" := by
  rfl

/-- C2 amended: for an in-filter frame decoding to an index with no
occupied slot, dispatch is a no-op (returns normally with the frame slot
table unchanged) exactly when no waker is registered at that index; with
a stale waker registered there, dispatch panics with No waiting frame
for response. -/
theorem dispatch_unoccupied_slot (N D : Nat) (raw : List Nat)
    (s : ClientInternals N D) (pdu : Pdu D) (rest : List Nat)
    (hl : ¬ raw.length < 14)
    (hety : 256 * raw.getD 12 0 + raw.getD 13 0 = ETHERCAT_ETHERTYPE)
    (hsrc : (raw.drop 6).take 6 ≠ MASTER_ADDR)
    (hdec : Pdu.from_ethernet_payload D (raw.drop 14) = .ok (pdu, rest))
    (hidx : pdu.index < N)
    (hslot : s.frames.getD pdu.index none = none) :
    (s.wakers.getD pdu.index none = none →
      ∃ s2, ClientInternals.parse_response_ethernet_packet raw s = .ok s2 ∧
        s2.frames = s.frames) ∧
    (∀ w : Nat, s.wakers.getD pdu.index none = some w →
      ClientInternals.parse_response_ethernet_packet raw s
        = .error "No waiting frame for response") := by
  constructor
  · intro hwak
    refine ⟨{ s with wakers := s.wakers.set pdu.index none }, ?_, rfl⟩
    rw [dispatch_reduce raw s pdu rest hl hety hsrc hdec hidx, hwak]
  · intro w hwak
    rw [dispatch_reduce raw s pdu rest hl hety hsrc hdec hidx, hwak, hslot]

/-- Witness for C2 amended: the no-op branch at a fresh capacity-1
table. -/
theorem dispatch_unoccupied_slot_witness :
    ∃ s2, ClientInternals.parse_response_ethernet_packet testFrame (ClientInternals.new 1 8)
        = .ok s2 ∧ s2.frames = (ClientInternals.new 1 8).frames :=
  (dispatch_unoccupied_slot 1 8 testFrame (ClientInternals.new 1 8) testRequest []
      (by decide) (by decide) (by decide) rfl (by decide) (by decide)).1
    (by decide)

/-- C3 counterexample: a frame that passes the filter but whose payload
is empty makes dispatch panic through the parse expect, instead of being
dropped silently. -/
theorem dispatch_malformed_counterexample :
    ClientInternals.parse_response_ethernet_packet testFrameShort (ClientInternals.new 1 8)
      = .error "Packet parse" := by
  rfl

/-- C3 amended: an in-filter frame whose payload fails to decode as a
PDU makes dispatch panic with the parse expect message — it does not
return normally; the panic aborts the call before any slot is read or
written, so no typed error reaches any waiting caller. -/
theorem dispatch_malformed_panics (N D : Nat) (raw : List Nat)
    (s : ClientInternals N D) (e : PduError)
    (hl : ¬ raw.length < 14)
    (hety : 256 * raw.getD 12 0 + raw.getD 13 0 = ETHERCAT_ETHERTYPE)
    (hsrc : (raw.drop 6).take 6 ≠ MASTER_ADDR)
    (hdec : Pdu.from_ethernet_payload D (raw.drop 14) = .error e) :
    ClientInternals.parse_response_ethernet_packet raw s = .error "Packet parse" := by
  unfold ClientInternals.parse_response_ethernet_packet
  rw [if_neg hl, if_neg (by push_neg; exact ⟨hety, hsrc⟩)]
  simp only [hdec]

/-- Witness for C3 amended at the concrete malformed frame. -/
theorem dispatch_malformed_panics_witness :
    Pdu.from_ethernet_payload 8 (testFrameShort.drop 14) = .error PduError.Decode ∧
    ClientInternals.parse_response_ethernet_packet testFrameShort (ClientInternals.new 1 8)
      = .error "Packet parse" :=
  ⟨rfl,
   dispatch_malformed_panics 1 8 testFrameShort (ClientInternals.new 1 8) PduError.Decode
     (by decide) (by decide) (by decide) rfl⟩

/-- C4 counterexample: a matching response for an occupied slot with no
registered waker leaves the state exactly unchanged — the decoded PDU is
not stored and the slot is not marked Done. -/
theorem dispatch_no_waker_counterexample :
    ClientInternals.parse_response_ethernet_packet testFrame
        ({ wakers := [none], frames := [some (RequestState.Created, testRequest)],
           send_waker := none, idx := 1 } : ClientInternals 1 8)
      = .ok { wakers := [none], frames := [some (RequestState.Created, testRequest)],
              send_waker := none, idx := 1 } ∧
    ({ wakers := [none], frames := [some (RequestState.Created, testRequest)],
       send_waker := none, idx := 1 } : ClientInternals 1 8).frames.getD 0 none
      ≠ some (RequestState.Done, testRequest) := by
  exact ⟨rfl, by decide⟩

/-- C4 amended: for a valid inbound response to an occupied slot with no
waker registered at its index, dispatch returns normally but discards the
response: the frame slot table is unchanged, so the slot keeps its old
state and stored request and is not marked Done. -/
theorem dispatch_no_waker_drops_response (N D : Nat) (raw : List Nat)
    (s : ClientInternals N D) (pdu : Pdu D) (rest : List Nat)
    (st : RequestState) (p : Pdu D)
    (hl : ¬ raw.length < 14)
    (hety : 256 * raw.getD 12 0 + raw.getD 13 0 = ETHERCAT_ETHERTYPE)
    (hsrc : (raw.drop 6).take 6 ≠ MASTER_ADDR)
    (hdec : Pdu.from_ethernet_payload D (raw.drop 14) = .ok (pdu, rest))
    (hidx : pdu.index < N)
    (hslot : s.frames.getD pdu.index none = some (st, p))
    (hwak : s.wakers.getD pdu.index none = none) :
    ∃ s2, ClientInternals.parse_response_ethernet_packet raw s = .ok s2 ∧
      s2.frames = s.frames ∧ s2.frames.getD pdu.index none = some (st, p) := by
  refine ⟨{ s with wakers := s.wakers.set pdu.index none }, ?_, rfl, hslot⟩
  rw [dispatch_reduce raw s pdu rest hl hety hsrc hdec hidx, hwak]

/-- Witness for C4 amended at a capacity-1 table holding the matching
request as a Created frame, with no waker. -/
theorem dispatch_no_waker_drops_response_witness :
    ∃ s2, ClientInternals.parse_response_ethernet_packet testFrame
        ({ wakers := [none], frames := [some (RequestState.Created, testRequest)],
           send_waker := none, idx := 1 } : ClientInternals 1 8)
        = .ok s2 ∧
      s2.frames = [some (RequestState.Created, testRequest)] ∧
      s2.frames.getD 0 none = some (RequestState.Created, testRequest) :=
  dispatch_no_waker_drops_response 1 8 testFrame
    { wakers := [none], frames := [some (RequestState.Created, testRequest)],
      send_waker := none, idx := 1 } testRequest [] RequestState.Created testRequest
    (by decide) (by decide) (by decide) rfl (by decide) (by decide) (by decide)

end EtherCrab
